import Mathlib

/-!
Shallow embedding of the retrieval core of `wget.py` (cenodis/tumblr-utils).
Pure header parsing, the retry counter, the chunk skip filter and the
control flow of `process_response`, the exception dispatch of
`_retrieve_loop`, the unreachable-host registry, and the cleanup in
`WgetRetrieveWrapper.__call__` are translated into executable Lean
definitions; the theorems at the end settle the specification claims.

Conventions: Python strings are `List Char` (digits are ASCII digits),
byte strings are `List Nat`, external collaborators (the date parser, the
inherited urllib3 decoder) are function parameters, and exceptions are an
explicit error type threaded through `Except` or result structures.
-/

set_option linter.unusedVariables false

deriving instance DecidableEq for Except

namespace WgetModel

/-- Verdict type of the response processor (wget.py:48-51). -/
inductive UErr
  | RETRUNNEEDED
  | RETRINCOMPLETE
  | RETRFINISHED
  deriving DecidableEq

/-- Document type flag: retrieval was OK (wget.py:44). -/
def RETROKF : Nat := 2

/-- Python str.strip for a character list: drop whitespace from both ends. -/
def pstrip (s : List Char) : List Char :=
  ((s.dropWhile Char.isWhitespace).reverse.dropWhile Char.isWhitespace).reverse

/-- Python str.split on a comma separator, as used at wget.py:274 and
wget.py:284: the empty string yields one empty field, and separators at the
ends yield empty fields. -/
def splitComma : List Char → List (List Char)
  | [] => [[]]
  | c :: rest =>
    if c = ',' then [] :: splitComma rest
    else
      match splitComma rest with
      | g :: gs => (c :: g) :: gs
      | [] => [[c]]

/-- Multipart guard test of wget.py:246-247: lower-case the Content-Type
value, keep the part before the first semicolon, strip it, and compare it
with the literal multipart/byteranges. -/
def is_multipart_byteranges (ct : List Char) : Bool :=
  decide (pstrip ((ct.map Char.toLower).takeWhile (fun c => c ≠ ';'))
    = "multipart/byteranges".toList)

/-- Content-Encoding normalization norm_enc of wget.py:273-274: None stays
None, otherwise split on commas and strip every token. -/
def norm_enc (enc : Option (List Char)) : Option (List (List Char)) :=
  enc.map (fun e => (splitComma e).map pstrip)

/-- Identity-encoding test of wget.py:283-285: the header is None or the
empty string, or every comma-separated token strips to identity. -/
def enc_identity (enc : Option (List Char)) : Bool :=
  match enc with
  | none => true
  | some [] => true
  | some e => (splitComma e).all (fun t => decide (pstrip t = "identity".toList))

/-- Digit scan shared by parse_crange_num (wget.py:408-411) and the
entity-length loop (wget.py:445-448): consume leading ASCII digits,
accumulating the base-10 value onto num. -/
def parseDigits : List Char → Nat → List Char × Nat
  | [], num => ([], num)
  | c :: rest, num =>
    if c.isDigit then parseDigits rest (10 * num + (c.toNat - 48))
    else (c :: rest, num)

/-- Model of parse_crange_num (wget.py:405-415). The end of the list plays
the role of the sentinel empty string appended at wget.py:434: it is not a
digit and equals no postchar, so reaching it is the ValueError, here none. -/
def parse_crange_num (h : List Char) (postchar : Char) :
    Option (List Char × Nat) :=
  match h with
  | [] => none
  | c :: _ =>
    if c.isDigit then
      match parseDigits h 0 with
      | (c' :: rest', num) => if c' = postchar then some (rest', num) else none
      | ([], _) => none
    else none

/-- Numeric core of parse_content_range (wget.py:432-456), applied after the
optional bytes token has been removed: FIRST, a dash, LAST, a slash, then
either a star (unknown entity length) or a digit scan, followed by the
validity test of wget.py:453. The check of the star at wget.py:442 reads one
character, which at the end of the input is the sentinel, hence the head
test. -/
def parse_content_range_rest (h : List Char) : Option (Nat × Nat × Option Nat) :=
  match parse_crange_num h '-' with
  | none => none
  | some (r1, first_bytep) =>
    match parse_crange_num r1 '/' with
    | none => none
    | some (r2, last_bytep) =>
      let entity_length : Option Nat :=
        if r2.head? = some '*' then none else some (parseDigits r2 0).2
      if last_bytep < first_bytep then none
      else
        match entity_length with
        | some el =>
          if el ≤ last_bytep then none else some (first_bytep, last_bytep, some el)
        | none => some (first_bytep, last_bytep, none)

/-- Model of parse_content_range (wget.py:418-456): a None header is
rejected; a bytes token is removed together with an optional colon and
leading whitespace, rejecting the header if nothing remains (wget.py:423-430);
the rest is parsed by parse_content_range_rest. -/
def parse_content_range (hdr : Option (List Char)) :
    Option (Nat × Nat × Option Nat) :=
  match hdr with
  | none => none
  | some h0 =>
    if "bytes".toList.isPrefixOf h0 then
      let h1 := h0.drop 5
      let h2 := if h1.head? = some ':' then h1.drop 1 else h1
      let h3 := h2.dropWhile Char.isWhitespace
      if h3 = [] then none else parse_content_range_rest h3
    else parse_content_range_rest h0

/-- TRY_LIMIT of RetryCounter (wget.py:510). In the source it is the integer
20, never None. -/
def TRY_LIMIT : Nat := 20

/-- MAX_RETRY_WAIT of RetryCounter (wget.py:511). -/
def MAX_RETRY_WAIT : Nat := 10

/-- RetryCounter.should_retry (wget.py:520-521). TRY_LIMIT is not None, so
the disjunction reduces to the comparison count < TRY_LIMIT. -/
def should_retry (count : Nat) : Bool := count < TRY_LIMIT

/-- Outcome of a well-typed call of RetryCounter.increment (wget.py:523-532):
either the method raises WGMaxRetryError, before any sleep, or it logs and
sleeps. Both constructors record the counter value after the increment. -/
inductive IncResult
  | raisedMaxRetry (count : Nat)
  | slept (count : Nat) (seconds : Nat)
  deriving DecidableEq

/-- RetryCounter.increment (wget.py:523-532) with the log-only parameters
url, hstat and cause omitted: add one to the count; if the budget is now
exhausted raise WGMaxRetryError, otherwise sleep min(count, MAX_RETRY_WAIT)
seconds. -/
def increment (count : Nat) : IncResult :=
  let c := count + 1
  if ¬ should_retry c then .raisedMaxRetry c
  else .slept c (min c MAX_RETRY_WAIT)

/-- Counter value recorded in an IncResult. -/
def inc_count : IncResult → Nat
  | .raisedMaxRetry c => c
  | .slept c _ => c

/-- Skip and length state of WGHTTPResponse (wget.py:105-106). -/
structure DecodeSt where
  bytes_to_skip : Nat
  last_read_length : Nat
  deriving DecidableEq

/-- WGHTTPResponse._decode (wget.py:114-127). The parameter dec stands for
the inherited urllib3 _decode, the content decompressor; it is applied only
to the non-skipped data, and not at all when that data is empty. -/
def wg_decode (dec : List Nat → List Nat) (st : DecodeSt) (data : List Nat) :
    DecodeSt × List Nat :=
  let dataLen := data.length
  let skipData : Nat × List Nat :=
    if st.bytes_to_skip ≥ dataLen then (st.bytes_to_skip - dataLen, [])
    else if st.bytes_to_skip > 0 then (0, data.drop st.bytes_to_skip)
    else (st.bytes_to_skip, data)
  let st' : DecodeSt := ⟨skipData.1, skipData.2.length⟩
  if skipData.2.isEmpty then (st', []) else (st', dec skipData.2)

/-- Data that wg_decode hands to the inherited decoder in one call; empty
when nothing is passed on (wget.py:116-126). -/
def dec_input (st : DecodeSt) (data : List Nat) : List Nat :=
  if st.bytes_to_skip ≥ data.length then []
  else if st.bytes_to_skip > 0 then data.drop st.bytes_to_skip
  else data

/-- Decoder inputs across a sequence of chunks, starting from state st. The
state evolution of wg_decode does not depend on the decoder, so the identity
is used to advance it. -/
def dec_inputs (st : DecodeSt) : List (List Nat) → List (List Nat)
  | [] => []
  | c :: cs => dec_input st c :: dec_inputs (wg_decode id st c).1 cs

/-- Content-Range qualifier of the RangeError message for a 206 response
(wget.py:341-346). -/
inductive CrangeStatus
  | notProvided
  | invalid
  | zero
  deriving DecidableEq

/-- Exceptions raised by the modelled code paths. typeError is the Python
TypeError raised when RetryCounter.increment is called with two positional
arguments (wget.py:279, wget.py:331) although its definition (wget.py:523)
declares three; httpError is a urllib3 HTTPError raised while reading the
body; osError is an OSError raised while writing the part file. -/
inductive PyExc
  | wgBadProtocol
  | wgBadResponse
  | wgWrongCode (status : Nat)
  | wgUnreachable (host : String)
  | wgRange (requested : Nat) (got : Nat)
  | wgRange206 (q : CrangeStatus)
  | wgMaxRetry
  | typeError
  | httpError
  | connectTimeout (host : String) (port : Option Nat)
  | osError
  | maxRetryError
  | assertionError
  deriving DecidableEq

/-- Fields of HttpStat (wget.py:54-88) touched by the modelled functions.
part_file holds the bytes written so far to the temp file; make_part_file is
the one-shot supplier flag armed by set_part_file_supplier. -/
structure Hstat where
  bytes_read : Nat := 0
  restval : Nat := 0
  contlen : Option Nat := none
  statcode : Nat := 0
  last_modified : Option String := none
  remote_time : Option Int := none
  remote_encoding : Option (List Char) := none
  enc_is_identity : Option Bool := none
  decoder : Option Nat := none
  part_file : Option (List Nat) := none
  make_part_file : Bool := false
  dest_dir : Option Unit := none
  deriving DecidableEq

/-- HttpStat.init_part_file (wget.py:85-88): create the part file from the
one-shot supplier if it is still armed. -/
def init_part_file (h : Hstat) : Hstat :=
  if h.make_part_file then { h with part_file := some [], make_part_file := false }
  else h

/-- Events of one pass over resp.stream in process_response (wget.py:372-377).
chunk is a successfully read block of undecoded entity bytes; setDecoder
models urllib3 creating or advancing the internal decoder object of the
response during a read; readError is an HTTPError raised by the read;
writeFail is a block whose part-file write raises OSError; maxRetryErr is a
urllib3 MaxRetryError raised by the read. -/
inductive StreamItem
  | chunk (data : List Nat)
  | setDecoder (d : Nat)
  | readError
  | writeFail (data : List Nat)
  | maxRetryErr
  deriving DecidableEq

/-- Except handler of the stream loop (wget.py:380-399), entered with a read
error (HTTPError) or a write error (OSError): if no data was read this
attempt, or the retry budget is exhausted, re-raise unchanged; otherwise
snapshot the decoder of the response, when present, into hstat and
re-raise. No retry slot is consumed here. -/
def stream_error_exit (rcount : Nat) (respDec : Option Nat) (h : Hstat)
    (e : PyExc) : Except PyExc (UErr × Nat) × Hstat :=
  if h.bytes_read = h.restval then (.error e, h)
  else if ¬ should_retry rcount then (.error e, h)
  else
    match respDec with
    | some d => (.error e, { h with decoder := some d })
    | none => (.error e, h)

/-- Stream loop of process_response (wget.py:372-402): decode each chunk,
add the non-skipped count last_read_length to bytes_read, append nonempty
decoded chunks to the part file; a MaxRetryError is re-raised as is, other
errors run the handler; on normal exhaustion clear the saved decoder and
return RETRFINISHED. -/
def streamRun (dec : List Nat → List Nat) (rcount doctype : Nat) :
    List StreamItem → DecodeSt → Option Nat → Hstat →
    Except PyExc (UErr × Nat) × Hstat
  | [], _, _, h => (.ok (UErr.RETRFINISHED, doctype), { h with decoder := none })
  | .chunk data :: rest, ds, respDec, h =>
    let r := wg_decode dec ds data
    let h' := { h with
      bytes_read := h.bytes_read + r.1.last_read_length,
      part_file := if r.2.isEmpty then h.part_file else h.part_file.map (· ++ r.2) }
    streamRun dec rcount doctype rest r.1 respDec h'
  | .setDecoder d :: rest, ds, _, h => streamRun dec rcount doctype rest ds (some d) h
  | .readError :: _, _, respDec, h => stream_error_exit rcount respDec h .httpError
  | .maxRetryErr :: _, _, _, h => (.error .maxRetryError, h)
  | .writeFail data :: rest, ds, respDec, h =>
    let r := wg_decode dec ds data
    let h' := { h with bytes_read := h.bytes_read + r.1.last_read_length }
    if r.2.isEmpty then streamRun dec rcount doctype rest r.1 respDec h'
    else stream_error_exit rcount respDec h' .osError

/-- Pre-stream setup of process_response (wget.py:358-370): skip the first
restval undecoded body bytes exactly when the server ignored the Range
request (restval positive, contrange zero); set bytes_read to restval;
resume the saved decoder on the response when restval is positive (the
fresh response's decoder is None, per the assertion at wget.py:366); and
materialize the part file. -/
def stream_setup (contrange : Nat) (h : Hstat) : DecodeSt × Option Nat × Hstat :=
  let skip := if h.restval > 0 ∧ contrange = 0 then h.restval else 0
  let h' := { h with bytes_read := h.restval }
  let respDec := if h.restval > 0 then h.decoder else none
  (⟨skip, 0⟩, respDec, init_part_file h')

/-- Header-derived fields and body script of one WGHTTPResponse as consumed
by process_response. contlenInit is the value of resp.get_content_length,
urllib3's _init_length (wget.py:250); statusRaw is none when int(resp.status)
raises ValueError (wget.py:288-291). -/
structure Resp where
  conttype : Option (List Char) := none
  contlenInit : Option Nat := none
  crange : Option (List Char) := none
  lastModified : Option String := none
  xArchiveLM : Option String := none
  contentEncoding : Option (List Char) := none
  statusRaw : Option Nat := none
  server : Option String := none
  items : List StreamItem := []
  deriving DecidableEq

/-- process_response (wget.py:243-402). parsedate models the external
composition mktime_tz after parsedate_tz (wget.py:268-269); dec models the
inherited urllib3 decoder; urlHost is normalized_host_from_url(url) as used
at wget.py:313; reg is the global unreachable_hosts set, returned so that
the cloudflare condemnation at wget.py:314 is visible. The two restart
paths (inconsistent Content-Encoding at wget.py:276-280 and the shrunk file
at wget.py:327-332) set restval to zero and then call
retry_counter.increment(hstat, cause) with two positional arguments for the
three-parameter method of wget.py:523, so Python raises TypeError at those
call sites, modelled by PyExc.typeError; their return statements are dead
code. -/
def process_response (parsedate : String → Option Int)
    (dec : List Nat → List Nat) (urlHost : String) (reg : List String)
    (hstat : Hstat) (doctype rcount : Nat) (resp : Resp) :
    Except PyExc (UErr × Nat) × Hstat × List String :=
  if (match resp.conttype with
      | some ct => is_multipart_byteranges ct
      | none => false) then
    (.error .wgBadResponse, hstat, reg)
  else
    let crange_parsed := parse_content_range resp.crange
    let contrange : Nat :=
      match crange_parsed with
      | some (first_bytep, _, _) => first_bytep
      | none => 0
    let contlen : Option Nat :=
      match crange_parsed with
      | some (first_bytep, last_bytep, _) => some (last_bytep - first_bytep + 1)
      | none => resp.contlenInit
    let lm : Option String :=
      match resp.lastModified with
      | some v => some v
      | none => resp.xArchiveLM
    let hstat1 := { hstat with
      last_modified := lm,
      remote_time := match lm with | none => none | some s => parsedate s }
    if hstat1.restval > 0 ∧ norm_enc hstat1.remote_encoding ≠ norm_enc resp.contentEncoding then
      (.error .typeError, { hstat1 with restval := 0 }, reg)
    else
      let hstat2 := { hstat1 with
        remote_encoding := resp.contentEncoding,
        enc_is_identity := some (enc_identity resp.contentEncoding) }
      let statcode := resp.statusRaw.getD 0
      let hstat3 := { hstat2 with statcode := statcode }
      let doctype1 :=
        if 200 ≤ statcode ∧ statcode < 300 ∧ statcode ≠ 207 then doctype ||| RETROKF
        else doctype
      if statcode = 204 then
        (.ok (UErr.RETRFINISHED, doctype1), { hstat3 with bytes_read := 0, restval := 0 }, reg)
      else if doctype1 &&& RETROKF = 0 then
        if resp.server = some "cloudflare" ∧
            (statcode = 521 ∨ statcode = 522 ∨ statcode = 523 ∨
             statcode = 525 ∨ statcode = 526) then
          (.error (.wgUnreachable urlHost), hstat3, urlHost :: reg)
        else
          (.error (.wgWrongCode statcode), hstat3, reg)
      else
        let shrunk : Bool :=
          if statcode = 416 then true
          else if statcode ≠ 200 ∨ contlen = some 0 then false
          else
            match contlen with
            | some cl => decide (contrange = 0 ∧ cl ≤ hstat3.restval)
            | none => false
        if shrunk then
          (.error .typeError, { hstat3 with restval := 0 }, reg)
        else if contrange ≠ 0 ∧ contrange ≠ hstat3.restval then
          (.error (.wgRange hstat3.restval contrange), hstat3, reg)
        else if statcode = 206 ∧ hstat3.restval > 0 ∧ contrange = 0 then
          let q : CrangeStatus :=
            match resp.crange, crange_parsed with
            | none, _ => .notProvided
            | some _, none => .invalid
            | some _, some _ => .zero
          (.error (.wgRange206 q), hstat3, reg)
        else
          let hstat4 := { hstat3 with contlen := contlen.map (· + contrange) }
          if doctype1 &&& RETROKF = 0 then
            (.ok (UErr.RETRFINISHED, doctype1), { hstat4 with bytes_read := 0, restval := 0 }, reg)
          else
            let setup := stream_setup contrange hstat4
            let r := streamRun dec rcount doctype1 resp.items setup.1 setup.2.1 setup.2.2
            (r.1, r.2, reg)

/-- Attempt-start resets of gethttp (wget.py:221-223) together with the
RETROKF clear of wget.py:230; RETROKF is a single bit, so the and-not is the
subtraction of the masked bit. -/
def gethttp_pre (h : Hstat) (doctype : Nat) : Hstat × Nat :=
  ({ h with bytes_read := 0, contlen := none, remote_time := none },
   doctype - (doctype &&& RETROKF))

/-- normalized_host (wget.py:544-547); the scheme is optional because
wget.py:600 passes None. -/
def normalized_host (scheme : Option String) (host : String) (port : Option Nat) :
    String :=
  let p : Nat :=
    match port with
    | some p => p
    | none => if scheme = some "http" then 80 else 443
  host ++ ":" ++ toString p

/-- Result of urlsplit as consumed by normalized_host_from_url
(wget.py:535-541). -/
structure SplitUrl where
  scheme : String
  hostname : String
  port : Option Nat
  deriving DecidableEq

/-- normalized_host_from_url (wget.py:535-541). -/
def normalized_host_from_url (u : SplitUrl) : String :=
  let p : Nat :=
    match u.port with
    | some p => p
    | none => if u.scheme = "http" then 80 else 443
  u.hostname ++ ":" ++ toString p

/-- unreachable_hosts.add (wget.py:314 and wget.py:601): the only mutations
of the registry anywhere in the source, both insertions; the set is module
level (wget.py:506) and is never cleared. -/
def condemn (reg : List String) (host : String) : List String := host :: reg

/-- Membership guard of WGHTTPConnectionPool.__init__ and
WGHTTPSConnectionPool.__init__ (wget.py:133-138 and wget.py:148-153): raise
WGUnreachableHostError before super().__init__ runs, hence before any
network machinery exists for the pool; `.ok` stands for proceeding to
super().__init__. -/
def pool_init (reg : List String) (scheme : String) (host : String)
    (port : Option Nat) : Except PyExc Unit :=
  let nh := normalized_host (some scheme) host port
  if nh ∈ reg then .error (.wgUnreachable nh) else .ok ()

/-- Pre-loop checks of _retrieve_loop (wget.py:561-566): the protocol check,
then the fast-fail registry membership test, both before any network
request is issued. -/
def retrieve_precheck (reg : List String) (u : SplitUrl) : Except PyExc Unit :=
  if ¬ (u.scheme = "http" ∨ u.scheme = "https") then .error .wgBadProtocol
  else if normalized_host_from_url u ∈ reg then
    .error (.wgUnreachable (normalized_host_from_url u))
  else .ok ()

/-- One step of the outer loop, translated from the except clauses of
_retrieve_loop: continueLoop carries the counter value after the consumed
retry slot. -/
inductive LoopStep
  | continueLoop (rcount : Nat)
  | raised (e : PyExc)
  deriving DecidableEq

/-- Exception dispatch of _retrieve_loop (wget.py:594-611): a urllib3
MaxRetryError becomes WGMaxRetryError; a ConnectTimeoutError condemns the
authority and raises WGUnreachableHostError; any other HTTPError consumes a
retry slot via the well-typed increment call of wget.py:605 and continues;
a WGUnreachableHostError is re-raised; every other exception, OSError
included, matches no except clause and propagates out of the loop. -/
def retrieve_except_dispatch (rcount : Nat) (reg : List String) (e : PyExc) :
    LoopStep × List String :=
  match e with
  | .maxRetryError => (.raised .wgMaxRetry, reg)
  | .connectTimeout host port =>
    let nh := normalized_host none host port
    (.raised (.wgUnreachable nh), condemn reg nh)
  | .httpError =>
    match increment rcount with
    | .raisedMaxRetry _ => (.raised .wgMaxRetry, reg)
    | .slept c _ => (.continueLoop c, reg)
  | .wgUnreachable h => (.raised (.wgUnreachable h), reg)
  | e => (.raised e, reg)

/-- Outcomes of the RETRFINISHED handling in _retrieve_loop. -/
inductive FinishOutcome
  | truncatedRetry (rcount : Nat)
  | raised (e : PyExc)
  | finalized (contents : List Nat)
  deriving DecidableEq

/-- RETRFINISHED handling of _retrieve_loop (wget.py:620-687): consume a
retry slot and continue when the connection closed before Content-Length was
reached (wget.py:622-625); then the assertion contlen in (None, bytes_read)
of wget.py:628 and the assertion part_file is not None of wget.py:631; then
the finalization of wget.py:634-687, abstracted to publishing the part-file
bytes at the destination. -/
def retrfinished_post (rcount : Nat) (h : Hstat) : FinishOutcome :=
  match h.contlen with
  | some cl =>
    if h.bytes_read < cl then
      match increment rcount with
      | .raisedMaxRetry _ => .raised .wgMaxRetry
      | .slept c _ => .truncatedRetry c
    else if cl ≠ h.bytes_read then .raised .assertionError
    else
      match h.part_file with
      | none => .raised .assertionError
      | some contents => .finalized contents
  | none =>
    match h.part_file with
    | none => .raised .assertionError
    | some contents => .finalized contents

/-- Abstract destination-directory state for one retrieve call: whether a
file exists at the destination path and whether the temp file of this
retrieval exists. -/
structure CallFS where
  destExists : Bool
  tempExists : Bool
  deriving DecidableEq

/-- Handle and filesystem state seen by the finally block of the functor. -/
structure CallState where
  dest_dir : Option Unit
  part_file : Option (List Nat)
  fs : CallFS
  deriving DecidableEq

/-- WgetRetrieveWrapper._close_part (wget.py:742-748): close the handle,
unlink the temp file (try_unlink, wget.py:690-694), and always clear
part_file. -/
def close_part (s : CallState) : CallState :=
  { s with part_file := none, fs := { s.fs with tempExists := false } }

/-- Finally block of WgetRetrieveWrapper.__call__ (wget.py:732-738): close
the directory handle if open, and run _close_part if the part file is still
around. -/
def call_finally (s : CallState) : CallState :=
  let s1 := if s.dest_dir ≠ none then { s with dest_dir := none } else s
  if s1.part_file ≠ none then close_part s1 else s1

/-- Exit states of _retrieve_loop (wget.py:550-687) as observed by the
finally block of the functor: success renamed the temp file onto the
destination and cleared part_file (wget.py:671-687); an exception raised
before init_part_file created the temp file leaves neither handle nor temp
file; an exception raised afterwards leaves the open handle and the temp
file. dest_dir is opened for the whole call (wget.py:578-579). -/
inductive LoopExit
  | success (contents : List Nat)
  | failBeforePart (e : PyExc)
  | failAfterPart (e : PyExc) (contents : List Nat)
  deriving DecidableEq

/-- State at loop exit, for a destination file initially present iff dest0. -/
def loop_exit (dest0 : Bool) : LoopExit → CallState
  | .success _ => ⟨some (), none, ⟨true, false⟩⟩
  | .failBeforePart _ => ⟨some (), none, ⟨dest0, false⟩⟩
  | .failAfterPart _ c => ⟨some (), some c, ⟨dest0, true⟩⟩

/-- WgetRetrieveWrapper.__call__ (wget.py:728-740): run the retrieve loop,
then the finally block, on every exit path. -/
def wget_call (dest0 : Bool) (ex : LoopExit) : CallState :=
  call_finally (loop_exit dest0 ex)

/-- Base-10 value of a digit string, digits combined left to right exactly
as the scan loops of wget.py:409-410 and wget.py:446-448 do. -/
def digitsVal (ds : List Char) : Nat :=
  ds.foldl (fun n c => 10 * n + (c.toNat - 48)) 0

/-- Content-Range header of the tolerated grammar: an optional bytes token,
then (only when the token is present) an optional colon and optional
whitespace, then FIRST, a dash, LAST, a slash and a final part (the LEN
digits or a star, possibly with trailing characters). -/
def mkCrangeHdr (useB useC : Bool) (ws d1 d2 lenPart : List Char) : List Char :=
  (if useB then "bytes".toList ++ (if useC then [':'] else []) ++ ws else []) ++
  (d1 ++ '-' :: (d2 ++ '/' :: lenPart))

/-- Modelled from the spec (section 4.2): the triple parse_content_range is
specified to return for a well-formed header with positions first and last
and optional entity length, null when LAST is below FIRST or LEN is at most
LAST. -/
def crange_spec (first_bytep last_bytep : Nat) (el : Option Nat) :
    Option (Nat × Nat × Option Nat) :=
  if last_bytep < first_bytep then none
  else
    match el with
    | some l =>
      if l ≤ last_bytep then none else some (first_bytep, last_bytep, some l)
    | none => some (first_bytep, last_bytep, none)

/-! ## Helper lemmas -/

/-- The masked bit survives: setting a mask and then testing it yields the
mask, for the RETROKF handling of wget.py:295-296 and wget.py:303. -/
theorem lor_land_self (a m : Nat) : (a ||| m) &&& m = m := by
  apply Nat.eq_of_testBit_eq
  intro i
  simp only [Nat.testBit_land, Nat.testBit_lor]
  cases hm : m.testBit i <;> simp [hm]

/-- An ASCII digit is not whitespace. -/
theorem digit_not_ws (c : Char) (h : c.isDigit = true) : c.isWhitespace = false := by
  by_contra hw
  rw [Bool.not_eq_false] at hw
  simp [Char.isWhitespace] at hw
  simp [Char.isDigit] at h
  rcases hw with ((rfl | rfl) | rfl) | rfl <;> revert h <;> decide

/-- An ASCII digit differs from every non-digit character. -/
theorem digit_ne_of (c c₀ : Char) (h : c.isDigit = true) (h0 : c₀.isDigit = false) :
    c ≠ c₀ :=
  fun e => absurd h (by simp [e, h0])

/-- The state produced by one wg_decode call: the pending skip shrinks by
the chunk length, and last_read_length counts exactly the non-skipped
bytes. -/
theorem wg_decode_fst (dec : List Nat → List Nat) (st : DecodeSt) (data : List Nat) :
    (wg_decode dec st data).1 =
      ⟨st.bytes_to_skip - data.length, data.length - st.bytes_to_skip⟩ := by
  simp only [wg_decode, apply_ite Prod.fst, apply_ite Prod.snd, ite_self]
  split_ifs with h1 h2 <;>
    simp [DecodeSt.mk.injEq, List.length_drop] <;> omega

/-- The data handed to the inherited decoder is the chunk with the pending
skip dropped. -/
theorem dec_input_drop (st : DecodeSt) (data : List Nat) :
    dec_input st data = data.drop st.bytes_to_skip := by
  unfold dec_input
  split_ifs with h1 h2
  · exact (List.drop_eq_nil_of_le h1).symm
  · rfl
  · have h0 : st.bytes_to_skip = 0 := by omega
    simp [h0]

/-- Across any chunk sequence, the bytes reaching the inherited decoder are
the stream with exactly the initial pending skip removed. -/
theorem dec_inputs_flatten (chunks : List (List Nat)) : ∀ st : DecodeSt,
    (dec_inputs st chunks).flatten = chunks.flatten.drop st.bytes_to_skip := by
  induction chunks with
  | nil => intro st; simp [dec_inputs]
  | cons c cs ih =>
    intro st
    simp only [dec_inputs, List.flatten_cons, dec_input_drop, ih, wg_decode_fst]
    rw [List.drop_append_eq_append_drop]

/-- Whitespace characters are not the colon. -/
theorem ws_ne_colon (c : Char) (h : c.isWhitespace = true) : c ≠ ':' :=
  fun e => absurd h (by rw [e]; decide)

/-- A list is a prefix of itself followed by anything, in the Boolean
isPrefixOf sense. -/
theorem isPrefixOf_append_self (l t : List Char) : l.isPrefixOf (l ++ t) = true := by
  induction l with
  | nil => simp
  | cons a l ih => simp [List.isPrefixOf_cons₂, ih]

/-- Dropping whitespace from a whitespace block followed by a
non-whitespace-headed list yields that list. -/
theorem dropWhile_ws_append (ws body : List Char)
    (hws : ∀ c ∈ ws, c.isWhitespace = true)
    (hb : ∀ c, body.head? = some c → c.isWhitespace = false) :
    (ws ++ body).dropWhile Char.isWhitespace = body := by
  induction ws with
  | nil =>
    cases body with
    | nil => rfl
    | cons b bs => simp [List.dropWhile_cons, hb b rfl]
  | cons w wst ih =>
    have hw := hws w (List.mem_cons_self _ _)
    simp only [List.cons_append, List.dropWhile_cons, hw, if_true]
    exact ih (fun x hx => hws x (List.mem_cons_of_mem _ hx))

/-- The digit scan consumes exactly a digit block, stopping at the first
non-digit, and accumulates its base-10 value. -/
theorem parseDigits_append (ds : List Char) : ∀ (rest : List Char) (acc : Nat),
    (∀ c ∈ ds, c.isDigit = true) →
    (∀ c, rest.head? = some c → c.isDigit = false) →
    parseDigits (ds ++ rest) acc
      = (rest, ds.foldl (fun n c => 10 * n + (c.toNat - 48)) acc) := by
  induction ds with
  | nil =>
    intro rest acc hd hr
    cases rest with
    | nil => rfl
    | cons c r => simp [parseDigits, hr c rfl]
  | cons c ds ih =>
    intro rest acc hd hr
    have hc := hd c (List.mem_cons_self _ _)
    simp only [List.cons_append, parseDigits, hc, if_true, List.foldl_cons]
    exact ih rest _ (fun x hx => hd x (List.mem_cons_of_mem _ hx)) hr

/-- parse_crange_num on a digit block followed by its postchar consumes the
block and the postchar and returns the base-10 value. -/
theorem parse_crange_num_append (ds rest : List Char) (p : Char)
    (hne : ds ≠ []) (hd : ∀ c ∈ ds, c.isDigit = true) (hp : p.isDigit = false) :
    parse_crange_num (ds ++ p :: rest) p = some (rest, digitsVal ds) := by
  cases ds with
  | nil => exact absurd rfl hne
  | cons c ds' =>
    have hc := hd c (List.mem_cons_self _ _)
    have hpd := parseDigits_append (c :: ds') (p :: rest) 0 hd
      (fun x hx => by injection hx with hx; subst hx; exact hp)
    simp only [List.cons_append] at hpd ⊢
    simp [parse_crange_num, hc, hpd, digitsVal]

/-- Prefix handling of parse_content_range: a header with the bytes token,
an optional colon and leading whitespace reduces to the numeric core on the
remaining body, provided the body starts with a digit. -/
theorem parse_content_range_strip (useC : Bool) (ws body : List Char)
    (hws : ∀ c ∈ ws, c.isWhitespace = true)
    (hb : ∀ x, body.head? = some x → x.isDigit = true)
    (hbne : body ≠ []) :
    parse_content_range
        (some ("bytes".toList ++ ((if useC then [':'] else []) ++ (ws ++ body))))
      = parse_content_range_rest body := by
  obtain ⟨b0, bt, rfl⟩ : ∃ b0 bt, body = b0 :: bt := by
    cases body with
    | nil => exact absurd rfl hbne
    | cons a b => exact ⟨a, b, rfl⟩
  have hb0 : b0.isDigit = true := hb b0 rfl
  have hbws : ∀ x, (b0 :: bt).head? = some x → x.isWhitespace = false :=
    fun x hx => by injection hx with hx; subst hx; exact digit_not_ws b0 hb0
  have hpre := isPrefixOf_append_self "bytes".toList
    ((if useC then [':'] else []) ++ (ws ++ b0 :: bt))
  have hdrop : ("bytes".toList ++ ((if useC then [':'] else []) ++ (ws ++ b0 :: bt))).drop 5
      = (if useC then [':'] else []) ++ (ws ++ b0 :: bt) := by
    have h5 : ("bytes".toList).length = 5 := rfl
    rw [← h5, List.drop_left]
  cases useC with
  | true =>
    have hmid : (if (true : Bool) then [':'] else ([] : List Char)) = [':'] := rfl
    rw [hmid] at hpre hdrop ⊢
    simp only [parse_content_range]
    rw [if_pos hpre, hdrop]
    simp only [List.singleton_append, List.head?_cons, reduceIte,
      List.drop_succ_cons, List.drop_zero]
    rw [dropWhile_ws_append ws _ hws hbws]
    rw [if_neg (List.cons_ne_nil b0 bt)]
  | false =>
    have hmid : (if (false : Bool) then [':'] else ([] : List Char)) = [] := rfl
    rw [hmid] at hpre hdrop ⊢
    rw [List.nil_append] at hpre hdrop ⊢
    have hhead : ¬ ((ws ++ b0 :: bt).head? = some ':') := by
      cases ws with
      | nil =>
        rw [List.nil_append]
        intro hx
        injection hx with hx
        exact digit_ne_of b0 ':' hb0 (by decide) hx
      | cons w wt =>
        have hw := hws w (List.mem_cons_self _ _)
        intro hx
        injection hx with hx
        exact ws_ne_colon w hw hx
    simp only [parse_content_range]
    rw [if_pos hpre, hdrop]
    rw [if_neg hhead]
    rw [dropWhile_ws_append ws _ hws hbws]
    rw [if_neg (List.cons_ne_nil b0 bt)]

/-- Full prefix handling: a grammar header parses like its numeric core. The
colon and whitespace are only present when the bytes token is. -/
theorem parse_content_range_mkHdr (useB useC : Bool) (ws d1 d2 lenPart : List Char)
    (hBC : useB = false → useC = false ∧ ws = [])
    (hws : ∀ c ∈ ws, c.isWhitespace = true)
    (h1ne : d1 ≠ []) (h1d : ∀ c ∈ d1, c.isDigit = true) :
    parse_content_range (some (mkCrangeHdr useB useC ws d1 d2 lenPart))
      = parse_content_range_rest (d1 ++ '-' :: (d2 ++ '/' :: lenPart)) := by
  obtain ⟨c, d1t, rfl⟩ : ∃ c d1t, d1 = c :: d1t := by
    cases d1 with
    | nil => exact absurd rfl h1ne
    | cons a b => exact ⟨a, b, rfl⟩
  have hc : c.isDigit = true := h1d c (List.mem_cons_self _ _)
  cases useB with
  | false =>
    obtain ⟨hC, hw0⟩ := hBC rfl
    subst hC hw0
    have hpre : "bytes".toList.isPrefixOf
        ((c :: d1t) ++ '-' :: (d2 ++ '/' :: lenPart)) = false := by
      rw [show "bytes".toList = 'b' :: "ytes".toList from rfl]
      rw [show ((c :: d1t) ++ '-' :: (d2 ++ '/' :: lenPart))
            = c :: (d1t ++ '-' :: (d2 ++ '/' :: lenPart)) from rfl]
      rw [List.isPrefixOf_cons₂]
      have : (('b' : Char) == c) = false := by
        simp [Ne.symm (digit_ne_of c 'b' hc (by decide))]
      rw [this, Bool.false_and]
    have hmk : mkCrangeHdr false false [] (c :: d1t) d2 lenPart
        = (c :: d1t) ++ '-' :: (d2 ++ '/' :: lenPart) := by
      simp [mkCrangeHdr]
    rw [hmk]
    simp only [parse_content_range]
    rw [if_neg (by rw [hpre]; exact Bool.false_ne_true)]
  | true =>
    have hassoc : mkCrangeHdr true useC ws (c :: d1t) d2 lenPart
        = "bytes".toList ++
          ((if useC then [':'] else []) ++
            (ws ++ ((c :: d1t) ++ '-' :: (d2 ++ '/' :: lenPart)))) := by
      simp [mkCrangeHdr, List.append_assoc]
    rw [hassoc]
    exact parse_content_range_strip useC ws _ hws
      (fun x hx => by injection hx with hx; subst hx; exact hc) (by simp)

/-- The numeric core on a grammar body evaluates to the validity test over
the base-10 values, with the entity length read off the final part. -/
theorem parse_content_range_rest_eq (d1 d2 tail : List Char)
    (h1ne : d1 ≠ []) (h1d : ∀ c ∈ d1, c.isDigit = true)
    (h2ne : d2 ≠ []) (h2d : ∀ c ∈ d2, c.isDigit = true) :
    parse_content_range_rest (d1 ++ '-' :: (d2 ++ '/' :: tail))
      = (if digitsVal d2 < digitsVal d1 then none
         else
           match (if tail.head? = some '*' then none
                  else some (parseDigits tail 0).2) with
           | some el =>
             if el ≤ digitsVal d2 then none
             else some (digitsVal d1, digitsVal d2, some el)
           | none => some (digitsVal d1, digitsVal d2, none)) := by
  simp only [parse_content_range_rest,
    parse_crange_num_append d1 (d2 ++ '/' :: tail) '-' h1ne h1d (by decide),
    parse_crange_num_append d2 tail '/' h2ne h2d (by decide)]

/-! ## Claim theorems -/

/-- C1: on every exit path of the retrieve functor the directory handle is
closed, the part-file handle is cleared, and the temp file is gone (either
renamed on success or unlinked by the finally block); hence a failed
retrieval with an initially absent destination file leaves neither a file at
the destination path nor a temp file in the destination directory. -/
theorem claim_C1_cleanup (dest0 : Bool) (ex : LoopExit) :
    (wget_call dest0 ex).dest_dir = none ∧
    (wget_call dest0 ex).part_file = none ∧
    (wget_call dest0 ex).fs.tempExists = false ∧
    ((∀ c, ex ≠ LoopExit.success c) → dest0 = false →
      (wget_call dest0 ex).fs.destExists = false) := by
  cases ex with
  | success c =>
    exact ⟨rfl, rfl, rfl, fun hno _ => absurd rfl (hno c)⟩
  | failBeforePart e =>
    exact ⟨rfl, rfl, rfl, fun _ h0 => h0⟩
  | failAfterPart e c =>
    exact ⟨rfl, rfl, rfl, fun _ h0 => h0⟩

/-- Witness for C1 at a concrete failing retrieval with the temp file
present. -/
theorem claim_C1_witness :
    (wget_call false (.failAfterPart .httpError [1])).dest_dir = none ∧
    (wget_call false (.failAfterPart .httpError [1])).fs.tempExists = false ∧
    (wget_call false (.failAfterPart .httpError [1])).fs.destExists = false := by
  have h := claim_C1_cleanup false (.failAfterPart .httpError [1])
  exact ⟨h.1, h.2.2.1, h.2.2.2 (fun c => by simp) rfl⟩

/-- C2: both restart triggers of process_response — a resume whose
normalized Content-Encoding tokens differ from the previous attempt's, and
a detected shrink (here status 200, known contlen 5, contrange 0, restval 5)
— do set restval to 0, but then raise TypeError at the two-argument
increment call instead of consuming a retry slot and returning
RETRINCOMPLETE. -/
theorem claim_C2_restart_bug :
    (process_response (fun _ => none) id "ex:80" []
      { restval := 1, remote_encoding := some "gzip".toList, make_part_file := true }
      0 0
      { statusRaw := some 200, contentEncoding := some "identity".toList }).1
        = Except.error PyExc.typeError ∧
    (process_response (fun _ => none) id "ex:80" []
      { restval := 1, remote_encoding := some "gzip".toList, make_part_file := true }
      0 0
      { statusRaw := some 200, contentEncoding := some "identity".toList }).2.1.restval
        = 0 ∧
    (process_response (fun _ => none) id "ex:80" []
      { restval := 5, make_part_file := true } 0 0
      { statusRaw := some 200, contlenInit := some 5 }).1
        = Except.error PyExc.typeError ∧
    (process_response (fun _ => none) id "ex:80" []
      { restval := 5, make_part_file := true } 0 0
      { statusRaw := some 200, contlenInit := some 5 }).2.1.restval = 0 := by
  decide

/-- C3: should_retry is the comparison count < 20; increment adds exactly
one, raises WGMaxRetryError (without sleeping) once the count reaches the
limit, and otherwise sleeps min(count, 10) seconds; hence the count never
exceeds 20 and each backoff is at most 10 seconds. -/
theorem claim_C3_retry_counter (c : Nat) :
    (should_retry c = true ↔ c < 20) ∧
    inc_count (increment c) = c + 1 ∧
    (TRY_LIMIT ≤ c + 1 → increment c = .raisedMaxRetry (c + 1)) ∧
    (c + 1 < TRY_LIMIT → increment c = .slept (c + 1) (min (c + 1) MAX_RETRY_WAIT)) ∧
    (∀ c' s, increment c = .slept c' s → s ≤ MAX_RETRY_WAIT) ∧
    (c < TRY_LIMIT → inc_count (increment c) ≤ TRY_LIMIT) := by
  refine ⟨by simp [should_retry, TRY_LIMIT], ?_, ?_, ?_, ?_, ?_⟩
  · by_cases h : c + 1 < 20 <;>
      simp [increment, inc_count, should_retry, TRY_LIMIT, h]
  · intro h
    replace h : 20 ≤ c + 1 := h
    have h' : ¬ c + 1 < 20 := by omega
    simp [increment, should_retry, TRY_LIMIT, MAX_RETRY_WAIT, h']
  · intro h
    replace h : c + 1 < 20 := h
    simp [increment, should_retry, TRY_LIMIT, MAX_RETRY_WAIT, h]
  · intro c' s h
    by_cases hlt : c + 1 < 20
    · simp [increment, should_retry, TRY_LIMIT, MAX_RETRY_WAIT, hlt] at h ⊢
      omega
    · simp [increment, should_retry, TRY_LIMIT, hlt] at h
  · intro h
    replace h : c < 20 := h
    show inc_count (increment c) ≤ 20
    by_cases hlt : c + 1 < 20 <;>
      simp [increment, inc_count, should_retry, TRY_LIMIT, hlt] <;> omega

/-- Witness for C3 at concrete counter values. -/
theorem claim_C3_witness :
    inc_count (increment 5) = 6 ∧
    increment 19 = .raisedMaxRetry 20 ∧
    increment 3 = .slept 4 (min 4 MAX_RETRY_WAIT) := by
  exact ⟨(claim_C3_retry_counter 5).2.1,
    (claim_C3_retry_counter 19).2.2.1 (by decide),
    (claim_C3_retry_counter 3).2.2.2.1 (by decide)⟩

/-- C4, counterexample: a write error (OSError) raised after progress and
with retry budget available does snapshot the decoder and propagate, but the
outer loop re-raises it instead of consuming a retry slot and retrying — in
contrast to a read error (HTTPError), which is retried. -/
theorem claim_C4_counterexample :
    (streamRun id 0 RETROKF [StreamItem.setDecoder 7, .chunk [1, 2, 3], .writeFail [4]]
      ⟨0, 0⟩ none { part_file := some [] }).1 = Except.error PyExc.osError ∧
    (streamRun id 0 RETROKF [StreamItem.setDecoder 7, .chunk [1, 2, 3], .writeFail [4]]
      ⟨0, 0⟩ none { part_file := some [] }).2.decoder = some 7 ∧
    (streamRun id 0 RETROKF [StreamItem.setDecoder 7, .chunk [1, 2, 3], .writeFail [4]]
      ⟨0, 0⟩ none { part_file := some [] }).2.bytes_read = 4 ∧
    retrieve_except_dispatch 0 [] PyExc.osError = (LoopStep.raised PyExc.osError, []) ∧
    retrieve_except_dispatch 0 [] PyExc.httpError = (LoopStep.continueLoop 1, []) := by
  decide

/-- C4, amended: in the stream loop's error handler, no progress means the
error propagates with no decoder snapshot and no retry slot consumed; with
progress and budget the decoder is snapshotted (when the response has one)
and the error propagates; the outer loop then consumes a retry slot and
retries for read errors (HTTPError), while write errors (OSError) match no
except clause and propagate out of the retrieve loop. -/
theorem claim_C4_amended (rcount doctype : Nat) (dec : List Nat → List Nat)
    (respDec : Option Nat) (h : Hstat) (e : PyExc) (reg : List String)
    (rest : List StreamItem) (ds : DecodeSt) :
    (h.bytes_read = h.restval → stream_error_exit rcount respDec h e = (.error e, h)) ∧
    (h.bytes_read ≠ h.restval → should_retry rcount = true →
      stream_error_exit rcount respDec h e =
        (.error e, match respDec with
                   | some d => { h with decoder := some d }
                   | none => h)) ∧
    (streamRun dec rcount doctype (.readError :: rest) ds respDec h =
      stream_error_exit rcount respDec h .httpError) ∧
    (rcount + 1 < TRY_LIMIT →
      retrieve_except_dispatch rcount reg .httpError = (.continueLoop (rcount + 1), reg)) ∧
    (retrieve_except_dispatch rcount reg .osError = (.raised .osError, reg)) := by
  refine ⟨?_, ?_, rfl, ?_, rfl⟩
  · intro h1
    simp [stream_error_exit, h1]
  · intro h1 h2
    cases respDec <;> simp [stream_error_exit, h1, h2]
  · intro h4
    replace h4 : rcount + 1 < 20 := h4
    have h5 : ¬ 19 ≤ rcount := by omega
    simp [retrieve_except_dispatch, increment, should_retry, TRY_LIMIT, h4, h5]

/-- Witness for C4 at a concrete handler state and counter. -/
theorem claim_C4_witness :
    stream_error_exit 0 (some 9) { bytes_read := 3 } PyExc.osError
      = (Except.error PyExc.osError, { bytes_read := 3, decoder := some 9 }) ∧
    retrieve_except_dispatch 0 [] PyExc.httpError = (LoopStep.continueLoop 1, []) := by
  have h := claim_C4_amended 0 0 id (some 9) { bytes_read := 3 } PyExc.osError [] [] ⟨0, 0⟩
  exact ⟨h.2.1 (by decide) (by decide), h.2.2.2.1 (by decide)⟩

/-- C5: a 204 response makes process_response return RETRFINISHED with
bytes_read and restval both zero, but on a fresh retrieval it returns before
init_part_file ran, so the finalization's part-file assertion fails with
AssertionError instead of producing an empty file. -/
theorem claim_C5_204_bug :
    (process_response (fun _ => none) id "ex:80" []
      (gethttp_pre { make_part_file := true, dest_dir := some () } 0).1
      (gethttp_pre { make_part_file := true, dest_dir := some () } 0).2 0
      { statusRaw := some 204 }).1 = Except.ok (UErr.RETRFINISHED, RETROKF) ∧
    (process_response (fun _ => none) id "ex:80" []
      (gethttp_pre { make_part_file := true, dest_dir := some () } 0).1
      (gethttp_pre { make_part_file := true, dest_dir := some () } 0).2 0
      { statusRaw := some 204 }).2.1.bytes_read = 0 ∧
    (process_response (fun _ => none) id "ex:80" []
      (gethttp_pre { make_part_file := true, dest_dir := some () } 0).1
      (gethttp_pre { make_part_file := true, dest_dir := some () } 0).2 0
      { statusRaw := some 204 }).2.1.restval = 0 ∧
    (process_response (fun _ => none) id "ex:80" []
      (gethttp_pre { make_part_file := true, dest_dir := some () } 0).1
      (gethttp_pre { make_part_file := true, dest_dir := some () } 0).2 0
      { statusRaw := some 204 }).2.1.part_file = none ∧
    retrfinished_post 0
      (process_response (fun _ => none) id "ex:80" []
        (gethttp_pre { make_part_file := true, dest_dir := some () } 0).1
        (gethttp_pre { make_part_file := true, dest_dir := some () } 0).2 0
        { statusRaw := some 204 }).2.1
      = FinishOutcome.raised PyExc.assertionError := by
  decide

/-- C7: the stream setup instructs the response to skip exactly restval
undecoded bytes iff restval is positive and contrange is zero, and nothing
otherwise; each wg_decode call reports as last_read_length (the amount
added to bytes_read per chunk) exactly the non-skipped byte count, zero
while the skip is still pending; and across a chunk sequence the bytes
reaching the decompressor are the stream minus exactly the initial skip. -/
theorem claim_C7_skip (contrange : Nat) (h : Hstat) (dec : List Nat → List Nat)
    (st : DecodeSt) (data : List Nat) (chunks : List (List Nat)) :
    (stream_setup contrange h).1
      = ⟨if h.restval > 0 ∧ contrange = 0 then h.restval else 0, 0⟩ ∧
    (wg_decode dec st data).1.last_read_length = data.length - st.bytes_to_skip ∧
    (data.length ≤ st.bytes_to_skip →
      (wg_decode dec st data).1.last_read_length = 0) ∧
    (dec_inputs st chunks).flatten = chunks.flatten.drop st.bytes_to_skip := by
  refine ⟨rfl, ?_, ?_, dec_inputs_flatten chunks st⟩
  · rw [wg_decode_fst]
  · intro hle
    rw [wg_decode_fst]
    simp only
    omega

/-- Witness for C7 at concrete skip states and chunk lists. -/
theorem claim_C7_witness :
    (stream_setup 0 { restval := 3 }).1 = ⟨3, 0⟩ ∧
    (wg_decode id ⟨5, 0⟩ [9, 9]).1.last_read_length = 0 ∧
    (dec_inputs ⟨2, 0⟩ [[1, 2, 3], [4]]).flatten = [3, 4] := by
  have h1 := (claim_C7_skip 0 { restval := 3 } id ⟨5, 0⟩ [9, 9] [[1, 2, 3], [4]]).1
  have h3 := (claim_C7_skip 0 { restval := 3 } id ⟨5, 0⟩ [9, 9]
    [[1, 2, 3], [4]]).2.2.1 (by decide)
  have h4 := (claim_C7_skip 0 { restval := 3 } id ⟨2, 0⟩ [9, 9] [[1, 2, 3], [4]]).2.2.2
  refine ⟨?_, h3, ?_⟩
  · rw [h1]; decide
  · rw [h4]; decide

/-- C6: registry membership is preserved by the only mutating operation,
which inserts; a condemned authority stays condemned; once an authority is
in the registry, creating a connection pool for it raises
WGUnreachableHostError before any network machinery, and a retrieval whose
URL resolves to it raises WGUnreachableHostError in the pre-loop check. -/
theorem claim_C6_registry (reg : List String) (hst x : String)
    (scheme host : String) (port : Option Nat) (u : SplitUrl) :
    (x ∈ reg → x ∈ condemn reg hst) ∧
    (hst ∈ condemn reg hst) ∧
    (normalized_host (some scheme) host port ∈ reg →
      pool_init reg scheme host port =
        Except.error (PyExc.wgUnreachable (normalized_host (some scheme) host port))) ∧
    ((u.scheme = "http" ∨ u.scheme = "https") → normalized_host_from_url u ∈ reg →
      retrieve_precheck reg u =
        Except.error (PyExc.wgUnreachable (normalized_host_from_url u))) := by
  refine ⟨fun hx => List.mem_cons_of_mem _ hx, List.mem_cons_self _ _, ?_, ?_⟩
  · intro hm
    simp [pool_init, hm]
  · intro hs hm
    rcases hs with h | h <;> simp [retrieve_precheck, h, hm]

/-- Witness for C6: the authority cf:443, condemned by a Cloudflare origin
error, fails fast at pool creation and at the retrieval pre-check. -/
theorem claim_C6_witness :
    "cf:443" ∈ condemn [] "cf:443" ∧
    pool_init ["cf:443"] "https" "cf" none
      = Except.error (PyExc.wgUnreachable (normalized_host (some "https") "cf" none)) ∧
    retrieve_precheck ["cf:443"] ⟨"https", "cf", none⟩
      = Except.error (PyExc.wgUnreachable (normalized_host_from_url ⟨"https", "cf", none⟩)) := by
  have h1 := claim_C6_registry [] "cf:443" "cf:443" "https" "cf" none ⟨"https", "cf", none⟩
  have h2 := claim_C6_registry ["cf:443"] "cf:443" "cf:443" "https" "cf" none
    ⟨"https", "cf", none⟩
  exact ⟨h1.2.1, h2.2.2.1 (by decide), h2.2.2.2 (Or.inr rfl) (by decide)⟩

/-- C8: for every header of the tolerated grammar — an optional bytes token
(with, only after it, an optional colon and optional whitespace), then
base-10 FIRST, a dash, base-10 LAST, a slash and base-10 LEN or a star —
the parser returns the triple of base-10 values (with null standing for the
star), except that it returns null when LAST is below FIRST or LEN is at
most LAST. -/
theorem claim_C8_crange (useB useC : Bool) (ws d1 d2 : List Char)
    (len : Option (List Char))
    (hBC : useB = false → useC = false ∧ ws = [])
    (hws : ∀ c ∈ ws, c.isWhitespace = true)
    (h1ne : d1 ≠ []) (h1d : ∀ c ∈ d1, c.isDigit = true)
    (h2ne : d2 ≠ []) (h2d : ∀ c ∈ d2, c.isDigit = true)
    (hlen : ∀ d3, len = some d3 → d3 ≠ [] ∧ ∀ c ∈ d3, c.isDigit = true) :
    (parse_content_range (some (mkCrangeHdr useB useC ws d1 d2
        (match len with | some d3 => d3 | none => ['*'])))
      = crange_spec (digitsVal d1) (digitsVal d2) (Option.map digitsVal len)) ∧
    parse_content_range none = none ∧
    (∀ c rest, c.isDigit = false → parse_content_range_rest (c :: rest) = none) ∧
    parse_content_range (some "bytes".toList) = none := by
  refine ⟨?_, rfl, ?_, by decide⟩
  · rw [parse_content_range_mkHdr useB useC ws d1 d2 _ hBC hws h1ne h1d,
        parse_content_range_rest_eq d1 d2 _ h1ne h1d h2ne h2d]
    cases len with
    | none => simp [crange_spec]
    | some d3 =>
      obtain ⟨h3ne, h3d⟩ := hlen d3 rfl
      obtain ⟨x, d3t, rfl⟩ : ∃ x t, d3 = x :: t := by
        cases d3 with
        | nil => exact absurd rfl h3ne
        | cons a b => exact ⟨a, b, rfl⟩
      have hx := h3d x (List.mem_cons_self _ _)
      have hstar : ¬ ((x :: d3t).head? = some '*') := by
        intro hx2
        injection hx2 with hx2
        exact digit_ne_of x '*' hx (by decide) hx2
      have hpd : parseDigits (x :: d3t) 0 = ([], digitsVal (x :: d3t)) := by
        have h := parseDigits_append (x :: d3t) [] 0 h3d (fun c hc => by simp at hc)
        simpa [digitsVal] using h
      have hxs : ¬ (x = '*') := digit_ne_of x '*' hx (by decide)
      simp [crange_spec, hstar, hpd, hxs]
  · intro c rest hcd
    simp [parse_content_range_rest, parse_crange_num, hcd]

/-- Witness for C8: a full header with the bytes token and whitespace, and
a bare rejected header with LEN equal to LAST. -/
theorem claim_C8_witness :
    parse_content_range (some "bytes 5-9/10".toList) = some (5, 9, some 10) ∧
    parse_content_range (some "0-5/5".toList) = none := by
  have h1 := claim_C8_crange true false [' '] ['5'] ['9'] (some ['1', '0'])
    (fun h => by exact absurd h (by decide)) (by decide) (by decide) (by decide)
    (by decide) (by decide)
    (fun d3 he => by injection he with he; subst he; exact ⟨by decide, by decide⟩)
  have h2 := claim_C8_crange false false [] ['0'] ['5'] (some ['5'])
    (fun _ => ⟨rfl, rfl⟩) (by decide) (by decide) (by decide) (by decide) (by decide)
    (fun d3 he => by injection he with he; subst he; exact ⟨by decide, by decide⟩)
  constructor
  · rw [show "bytes 5-9/10".toList
        = mkCrangeHdr true false [' '] ['5'] ['9'] ['1', '0'] from by decide]
    rw [show (mkCrangeHdr true false [' '] ['5'] ['9'] ['1', '0'])
        = (mkCrangeHdr true false [' '] ['5'] ['9']
            (match some ['1', '0'] with | some d3 => d3 | none => ['*'])) from rfl]
    rw [h1.1]
    decide
  · rw [show "0-5/5".toList = mkCrangeHdr false false [] ['0'] ['5'] ['5'] from by decide]
    rw [show (mkCrangeHdr false false [] ['0'] ['5'] ['5'])
        = (mkCrangeHdr false false [] ['0'] ['5']
            (match some ['5'] with | some d3 => d3 | none => ['*'])) from rfl]
    rw [h2.1]
    decide

/-- C10: the parser requires no end of input after the entity length: when
the LEN digits (the complete digit run, so the trailing part does not begin
with a digit) or the star are followed by arbitrary trailing characters,
the result equals that for the header without the trailing characters. -/
theorem claim_C10_trailing (useB useC : Bool) (ws d1 d2 : List Char)
    (len : Option (List Char)) (t : List Char)
    (hBC : useB = false → useC = false ∧ ws = [])
    (hws : ∀ c ∈ ws, c.isWhitespace = true)
    (h1ne : d1 ≠ []) (h1d : ∀ c ∈ d1, c.isDigit = true)
    (h2ne : d2 ≠ []) (h2d : ∀ c ∈ d2, c.isDigit = true)
    (hlen : ∀ d3, len = some d3 → d3 ≠ [] ∧ ∀ c ∈ d3, c.isDigit = true)
    (ht : ∀ d3, len = some d3 → ∀ x, t.head? = some x → x.isDigit = false) :
    parse_content_range (some (mkCrangeHdr useB useC ws d1 d2
        ((match len with | some d3 => d3 | none => ['*']) ++ t)))
      = parse_content_range (some (mkCrangeHdr useB useC ws d1 d2
        (match len with | some d3 => d3 | none => ['*']))) := by
  rw [parse_content_range_mkHdr useB useC ws d1 d2 _ hBC hws h1ne h1d,
      parse_content_range_mkHdr useB useC ws d1 d2 _ hBC hws h1ne h1d,
      parse_content_range_rest_eq d1 d2 _ h1ne h1d h2ne h2d,
      parse_content_range_rest_eq d1 d2 _ h1ne h1d h2ne h2d]
  cases len with
  | none => simp
  | some d3 =>
    obtain ⟨h3ne, h3d⟩ := hlen d3 rfl
    obtain ⟨x, d3t, rfl⟩ : ∃ x tl, d3 = x :: tl := by
      cases d3 with
      | nil => exact absurd rfl h3ne
      | cons a b => exact ⟨a, b, rfl⟩
    have hx := h3d x (List.mem_cons_self _ _)
    have hstar1 : ¬ (((x :: d3t) ++ t).head? = some '*') := by
      intro hx2
      rw [List.cons_append, List.head?_cons] at hx2
      injection hx2 with hx2
      exact digit_ne_of x '*' hx (by decide) hx2
    have hstar2 : ¬ ((x :: d3t).head? = some '*') := by
      intro hx2
      injection hx2 with hx2
      exact digit_ne_of x '*' hx (by decide) hx2
    have hpd1 : parseDigits ((x :: d3t) ++ t) 0 = (t, digitsVal (x :: d3t)) := by
      have h := parseDigits_append (x :: d3t) t 0 h3d (ht (x :: d3t) rfl)
      simpa [digitsVal] using h
    have hpd2 : parseDigits (x :: d3t) 0 = ([], digitsVal (x :: d3t)) := by
      have h := parseDigits_append (x :: d3t) [] 0 h3d (fun c hc => by simp at hc)
      simpa [digitsVal] using h
    have hxs : ¬ (x = '*') := digit_ne_of x '*' hx (by decide)
    simp only [List.cons_append] at hpd1
    simp [hstar1, hstar2, hpd1, hpd2, hxs]

/-- Witness for C10 at the literal example of the claim: trailing garbage
after the LEN digits is ignored, and after a star as well. -/
theorem claim_C10_witness :
    parse_content_range (some "bytes 0-5/10garbage".toList)
      = parse_content_range (some "bytes 0-5/10".toList) ∧
    parse_content_range (some "bytes 0-5/10".toList) = some (0, 5, some 10) ∧
    parse_content_range (some "0-5/*junk".toList)
      = parse_content_range (some "0-5/*".toList) := by
  have h1 := claim_C10_trailing true false [' '] ['0'] ['5'] (some ['1', '0'])
    "garbage".toList
    (fun h => by exact absurd h (by decide)) (by decide) (by decide) (by decide)
    (by decide) (by decide)
    (fun d3 he => by injection he with he; subst he; exact ⟨by decide, by decide⟩)
    (fun d3 he x hx => by
      injection hx with hx
      subst hx
      decide)
  have h2 := claim_C10_trailing false false [] ['0'] ['5'] none "junk".toList
    (fun _ => ⟨rfl, rfl⟩) (by decide) (by decide) (by decide) (by decide) (by decide)
    (fun d3 he => by exact Option.noConfusion he)
    (fun d3 he => by exact Option.noConfusion he)
  refine ⟨?_, by decide, ?_⟩
  · rw [show "bytes 0-5/10garbage".toList
        = mkCrangeHdr true false [' '] ['0'] ['5'] (['1', '0'] ++ "garbage".toList)
          from by decide]
    rw [show "bytes 0-5/10".toList
        = mkCrangeHdr true false [' '] ['0'] ['5'] ['1', '0'] from by decide]
    exact h1
  · rw [show "0-5/*junk".toList
        = mkCrangeHdr false false [] ['0'] ['5'] (['*'] ++ "junk".toList)
          from by decide]
    rw [show "0-5/*".toList = mkCrangeHdr false false [] ['0'] ['5'] ['*']
          from by decide]
    exact h2

/-- C9: once a response passes the multipart, encoding-continuity, status
and shrink checks, process_response raises WGRangeError — which the outer
loop does not catch, so no retry slot is consumed — whenever contrange is
neither 0 nor restval; and on a 206 with positive restval and contrange 0
it raises WGRangeError with the qualifier telling whether Content-Range was
missing, unparseable, or numerically zero. -/
theorem claim_C9_range_errors (pd : String → Option Int) (dec : List Nat → List Nat)
    (uh : String) (reg : List String) (h : Hstat) (d rcount : Nat) (resp : Resp)
    (s : Nat)
    (hct : (match resp.conttype with
            | some ct => is_multipart_byteranges ct
            | none => false) = false)
    (henc : norm_enc h.remote_encoding = norm_enc resp.contentEncoding)
    (hs : resp.statusRaw = some s)
    (h200 : 200 ≤ s) (h300 : s < 300) (h207 : s ≠ 207) (h204 : s ≠ 204)
    (h416 : s ≠ 416) :
    (∀ first_bytep last_bytep el,
      parse_content_range resp.crange = some (first_bytep, last_bytep, el) →
      first_bytep ≠ 0 → first_bytep ≠ h.restval →
      (process_response pd dec uh reg h d rcount resp).1
          = Except.error (PyExc.wgRange h.restval first_bytep) ∧
      (process_response pd dec uh reg h d rcount resp).2.2 = reg) ∧
    (s = 206 → 0 < h.restval →
      (resp.crange = none →
        (process_response pd dec uh reg h d rcount resp).1
            = Except.error (PyExc.wgRange206 CrangeStatus.notProvided) ∧
        (process_response pd dec uh reg h d rcount resp).2.2 = reg) ∧
      (∀ raw, resp.crange = some raw → parse_content_range (some raw) = none →
        (process_response pd dec uh reg h d rcount resp).1
            = Except.error (PyExc.wgRange206 CrangeStatus.invalid) ∧
        (process_response pd dec uh reg h d rcount resp).2.2 = reg) ∧
      (∀ raw last_bytep el, resp.crange = some raw →
        parse_content_range (some raw) = some (0, last_bytep, el) →
        (process_response pd dec uh reg h d rcount resp).1
            = Except.error (PyExc.wgRange206 CrangeStatus.zero) ∧
        (process_response pd dec uh reg h d rcount resp).2.2 = reg)) ∧
    (∀ req got, retrieve_except_dispatch rcount reg (PyExc.wgRange req got)
        = (LoopStep.raised (PyExc.wgRange req got), reg)) ∧
    (∀ q, retrieve_except_dispatch rcount reg (PyExc.wgRange206 q)
        = (LoopStep.raised (PyExc.wgRange206 q), reg)) := by
  refine ⟨?_, ?_, fun req got => rfl, fun q => rfl⟩
  · intro first_bytep last_bytep el hcr hf0 hfr
    by_cases hs200 : s = 200
    · subst hs200
      constructor <;>
        simp [process_response, hct, henc, hs, hcr, hf0, hfr,
          lor_land_self, RETROKF, Nat.succ_ne_zero]
    · constructor <;>
        simp [process_response, hct, henc, hs, hcr, hf0, hfr, h200, h300, h207,
          h204, h416, hs200, lor_land_self, RETROKF]
  · intro hs206 hrest
    subst hs206
    refine ⟨?_, ?_, ?_⟩
    · intro hcrn
      constructor <;>
        simp [process_response, hct, henc, hs, hcrn, parse_content_range, hrest,
          lor_land_self, RETROKF]
    · intro raw hcr1 hcr2
      constructor <;>
        simp [process_response, hct, henc, hs, hcr1, hcr2, hrest,
          lor_land_self, RETROKF]
    · intro raw last_bytep el hcr1 hcr2
      constructor <;>
        simp [process_response, hct, henc, hs, hcr1, hcr2, hrest,
          lor_land_self, RETROKF]

/-- Witness for C9: a 206 with an unrelated Content-Range (requested offset
2, server sent 5), and a 206 with an unparseable Content-Range. -/
theorem claim_C9_witness :
    (process_response (fun _ => none) id "ex:80" [] { restval := 2 } 0 0
      { statusRaw := some 206, crange := some "bytes 5-9/10".toList }).1
        = Except.error (PyExc.wgRange 2 5) ∧
    (process_response (fun _ => none) id "ex:80" [] { restval := 2 } 0 0
      { statusRaw := some 206, crange := some "garbage".toList }).1
        = Except.error (PyExc.wgRange206 CrangeStatus.invalid) := by
  have hA := (claim_C9_range_errors (fun _ => none) id "ex:80" [] { restval := 2 } 0 0
    { statusRaw := some 206, crange := some "bytes 5-9/10".toList } 206
    rfl rfl rfl (by decide) (by decide) (by decide) (by decide) (by decide)).1
    5 9 (some 10) (by decide) (by decide) (by decide)
  have hB := ((claim_C9_range_errors (fun _ => none) id "ex:80" [] { restval := 2 } 0 0
    { statusRaw := some 206, crange := some "garbage".toList } 206
    rfl rfl rfl (by decide) (by decide) (by decide) (by decide) (by decide)).2.1
    rfl (by decide)).2.1 "garbage".toList rfl (by decide)
  exact ⟨hA.1, hB.1⟩

end WgetModel
